import Mathlib

/-!
Verification of the sentiment inference service
(`src/lib/greengrass/components/sentiment/sentiment_service.py`).

The service keeps three module-level globals: `classifier` (None until the
model pipeline has been constructed), `request_count` and `total_latency_ms`
(running counters).  The HTTP handlers `analyze_sentiment`, `analyze_batch`,
`health_check` and `get_metrics` are embedded below as pure functions over an
explicit state; nondeterministic environment inputs (measured wall-clock
latency, whether the underlying model call raises) are explicit parameters.
Real time (timestamps, uptime) and the model weights themselves are abstracted:
the classification capability is an opaque function from text to a raw
label/score pair, exactly the interface the service uses.
-/

/-- One entry of the list returned by the `transformers` pipeline for one
input text: the raw model label (e.g. "POSITIVE") and a confidence score.
Scores are modelled as rationals. -/
structure RawResult where
  label : String
  score : ℚ
deriving Repr, DecidableEq

/-- The opaque classification capability.  Applying the loaded pipeline to a
list of texts returns one `RawResult` per text, in order; this is modelled by
mapping a per-text function over the list. -/
abbrev Cap := String → RawResult

/-- The two metrics globals of the module: `request_count` and
`total_latency_ms` (`sentiment_service.py` lines 64-65). -/
structure Metrics where
  request_count : Nat
  total_latency_ms : Nat
deriving Repr, DecidableEq

/-- `SentimentRequest` (lines 69-72): the text plus an optional context tag. -/
structure SentimentRequest where
  text : String
  context : Option String
deriving Repr, DecidableEq

/-- Pydantic validation of `SentimentRequest.text`:
`Field(..., min_length=1, max_length=5000)` (line 71). -/
def SentimentRequest.valid (r : SentimentRequest) : Bool :=
  decide (1 ≤ r.text.length ∧ r.text.length ≤ 5000)

/-- `BatchSentimentRequest` (lines 75-77): a list of texts. -/
structure BatchSentimentRequest where
  texts : List String
deriving Repr, DecidableEq

/-- Pydantic validation of `BatchSentimentRequest.texts`:
`Field(..., min_items=1, max_items=100)` (line 77).  There is no constraint on
the individual strings. -/
def BatchSentimentRequest.valid (r : BatchSentimentRequest) : Bool :=
  decide (1 ≤ r.texts.length ∧ r.texts.length ≤ 100)

/-- Error outcomes of a request: a pydantic validation rejection (FastAPI
turns it into a 422 before the handler runs), or an `HTTPException` raised by
the handler with a status code and a detail string. -/
inductive HError where
  | validationError : HError
  | httpError (status : Nat) (detail : String) : HError
deriving Repr, DecidableEq

/-- `SentimentResponse` (lines 80-88), without the ISO timestamp (real time is
abstracted). -/
structure SentimentResponse where
  sentiment : String
  score : ℚ
  label : String
  source : String
  latency_ms : Nat
  context : Option String
deriving Repr, DecidableEq

/-- One element of the `results` list of a batch response (lines 286-292). -/
structure BatchItem where
  text : String
  sentiment : String
  score : ℚ
  label : String
  latency_ms : Nat
deriving Repr, DecidableEq

/-- The batch response dict (lines 284-299), without the timestamp. -/
structure BatchResponse where
  results : List BatchItem
  source : String
  total_latency_ms : Nat
  count : Nat
deriving Repr, DecidableEq

/-- `POST /analyze` (lines 154-220).  `classifier` is the global (None while
not loaded); `latency_ms` is the measured wall-clock duration of the
`classifier(request.text)` call; `raises` is `some msg` when that call raises
with message `msg`.  Returns the metrics globals after the call together with
the outcome.  Source order: validation happens before the handler; the handler
raises 503 if `classifier` is falsy (line 191-192); the inference call runs
before the metrics update (lines 197-202), so a raising call leaves the
counters untouched and yields a 500 with the message (lines 218-220). -/
def analyze_sentiment (classifier : Option Cap) (req : SentimentRequest)
    (latency_ms : Nat) (raises : Option String) (m : Metrics) :
    Metrics × Except HError SentimentResponse :=
  if req.valid then
    match classifier with
    | none => (m, .error (.httpError 503 "Model not loaded"))
    | some c =>
      match raises with
      | some msg => (m, .error (.httpError 500 msg))
      | none =>
        let result := c req.text
        (⟨m.request_count + 1, m.total_latency_ms + latency_ms⟩,
         .ok ⟨result.label.toLower, result.score, result.label,
              "greengrass-edge", latency_ms, req.context⟩)
  else (m, .error .validationError)

/-- `POST /analyze/batch` (lines 223-303).  `total_time_ms` is the measured
duration of the single `classifier(request.texts)` call (line 272); `raises`
models that call raising.  On success the counters gain `len(texts)` and
`total_time_ms` (lines 276-277), each result entry carries
`total_time_ms // len(texts)` as its latency (lines 280, 291), and the results
are `zip(request.texts, results)` shaped (lines 285-294). -/
def analyze_batch (classifier : Option Cap) (req : BatchSentimentRequest)
    (total_time_ms : Nat) (raises : Option String) (m : Metrics) :
    Metrics × Except HError BatchResponse :=
  if req.valid then
    match classifier with
    | none => (m, .error (.httpError 503 "Model not loaded"))
    | some c =>
      match raises with
      | some msg => (m, .error (.httpError 500 msg))
      | none =>
        let results := req.texts.map c
        let per_text_latency := total_time_ms / req.texts.length
        (⟨m.request_count + req.texts.length,
          m.total_latency_ms + total_time_ms⟩,
         .ok ⟨(req.texts.zip results).map
               (fun p => ⟨p.1, p.2.label.toLower, p.2.score, p.2.label,
                          per_text_latency⟩),
              "greengrass-edge", total_time_ms, req.texts.length⟩)
  else (m, .error .validationError)

/-- Round a rational to the nearest integer, ties to even — the rounding mode
of Python's built-in `round`. -/
def round_half_even (q : ℚ) : ℤ :=
  let f := ⌊q⌋
  let r := q - (f : ℚ)
  if r < 1 / 2 then f
  else if 1 / 2 < r then f + 1
  else if f % 2 = 0 then f else f + 1

/-- Python's `round(x, 2)`: round to two decimal places, ties to even.  (The
binary floating-point representation of intermediate values is abstracted;
values are exact rationals.) -/
def pyRound2 (q : ℚ) : ℚ := (round_half_even (q * 100) : ℚ) / 100

/-- The average computed by both `health_check` (line 142) and `get_metrics`
(line 319): `total_latency_ms / request_count if request_count > 0 else 0`. -/
def avg_latency (m : Metrics) : ℚ :=
  if m.request_count > 0 then
    (m.total_latency_ms : ℚ) / (m.request_count : ℚ)
  else 0

/-- `HealthResponse` (lines 91-98), without the model name and uptime (both
environment-derived). -/
structure HealthResponse where
  status : String
  service : String
  total_requests : Nat
  avg_latency_ms : ℚ
deriving Repr, DecidableEq

/-- `GET /health` (lines 129-151): status is `"healthy"` iff the `classifier`
global is set; the average is rounded to two decimals (line 150). -/
def health_check (classifier : Option Cap) (m : Metrics) : HealthResponse :=
  ⟨if classifier.isSome then "healthy" else "unhealthy", "sentiment",
   m.request_count, pyRound2 (avg_latency m)⟩

/-- The numeric fields of the `GET /metrics` response (lines 306-328), without
uptime and model name. -/
structure MetricsResponse where
  requests_total : Nat
  latency_avg_ms : ℚ
  latency_total_ms : Nat
  status_flag : Nat
deriving Repr, DecidableEq

/-- `GET /metrics` (lines 306-328): counters, the rounded average (line 324)
and the 1/0 readiness flag (line 327). -/
def get_metrics (classifier : Option Cap) (m : Metrics) : MetricsResponse :=
  ⟨m.request_count, pyRound2 (avg_latency m), m.total_latency_ms,
   if classifier.isSome then 1 else 0⟩

/-- A fixed concrete capability used to instantiate theorems at concrete
inputs. -/
def c0 : Cap := fun _ => ⟨"POSITIVE", 1⟩

/-! ## Helper lemmas -/

/-- Zipping a list with its own image under `f` and mapping `g` over the pairs
is a single map. -/
lemma zip_map_self {α β γ : Type} (f : α → β) (g : α × β → γ) :
    ∀ l : List α, (l.zip (l.map f)).map g = l.map fun a => g (a, f a)
  | [] => rfl
  | a :: t => by simp [zip_map_self f g t]

/-- Shape of a successful batch call: the updated counters and the response
built by mapping the capability over the texts in order. -/
lemma analyze_batch_ok (c : Cap) (texts : List String) (t_ms : Nat)
    (m : Metrics) (hv : BatchSentimentRequest.valid ⟨texts⟩ = true) :
    analyze_batch (some c) ⟨texts⟩ t_ms none m =
      (⟨m.request_count + texts.length, m.total_latency_ms + t_ms⟩,
       .ok ⟨texts.map (fun t =>
              ⟨t, (c t).label.toLower, (c t).score, (c t).label,
               t_ms / texts.length⟩),
            "greengrass-edge", t_ms, texts.length⟩) := by
  simp [analyze_batch, hv, zip_map_self]

/-! ## Claims -/

/-- Claim C3 (corrected): the average latency returned by the health and the
metrics queries is the quotient `total_latency_ms / request_count` rounded to
two decimal places (ties to even), and `0` when `request_count` is zero; both
endpoints return the same value.  (The original claim said the quotient is
returned exactly; the code applies `round(avg_latency, 2)` at lines 150 and
324, so e.g. a state with 3 requests and 1 ms total returns 33/100, not 1/3.) -/
theorem avg_latency_is_rounded_quotient (classifier : Option Cap) (m : Metrics) :
    (health_check classifier m).avg_latency_ms =
      (if m.request_count = 0 then 0
       else pyRound2 ((m.total_latency_ms : ℚ) / (m.request_count : ℚ))) ∧
    (get_metrics classifier m).latency_avg_ms =
      (health_check classifier m).avg_latency_ms := by
  refine ⟨?_, rfl⟩
  by_cases h : m.request_count = 0
  · simp [health_check, avg_latency, h, pyRound2, round_half_even]
  · simp [health_check, avg_latency, h, Nat.pos_of_ne_zero h]

/-- Claim C3, counterexample to the original wording: with 3 recorded requests
totalling 1 ms, both endpoints return 33/100, which differs from the exact
quotient 1/3. -/
theorem avg_latency_not_exact_quotient :
    (health_check (some c0) ⟨3, 1⟩).avg_latency_ms = 33 / 100 ∧
    (get_metrics (some c0) ⟨3, 1⟩).latency_avg_ms = 33 / 100 ∧
    ((33 : ℚ) / 100) ≠
      (((⟨3, 1⟩ : Metrics).total_latency_ms : ℚ) /
       ((⟨3, 1⟩ : Metrics).request_count : ℚ)) := by
  have hfloor : ⌊(3⁻¹ : ℚ) * 100⌋ = 33 := by norm_num [Int.floor_eq_iff]
  have hfract : Int.fract ((3⁻¹ : ℚ) * 100) < 2⁻¹ := by
    rw [Int.fract, hfloor]; norm_num
  refine ⟨?_, ?_, by norm_num⟩ <;>
  · simp [health_check, get_metrics, avg_latency, pyRound2, round_half_even,
          hfloor, hfract]
    norm_num

/-- Claim C4: a successful batch call on texts of a valid batch request
returns `count = N`, a results list of length `N`, and for every index the
`i`-th result is the classification of the `i`-th input text. -/
theorem analyze_batch_order_preserved (c : Cap) (texts : List String)
    (t_ms : Nat) (m : Metrics)
    (hv : BatchSentimentRequest.valid ⟨texts⟩ = true) :
    ∃ resp : BatchResponse,
      (analyze_batch (some c) ⟨texts⟩ t_ms none m).2 = .ok resp ∧
      resp.count = texts.length ∧
      resp.results.length = texts.length ∧
      ∀ i : Nat, resp.results[i]? = (texts[i]?).map
        (fun t => ⟨t, (c t).label.toLower, (c t).score, (c t).label,
                   t_ms / texts.length⟩) := by
  refine ⟨_, by rw [analyze_batch_ok c texts t_ms m hv], rfl, by simp, ?_⟩
  intro i
  simp [List.getElem?_map]

/-- Claim C4, witness at a concrete two-text batch. -/
theorem analyze_batch_order_preserved_witness :
    BatchSentimentRequest.valid ⟨["good", "bad"]⟩ = true ∧
    (∃ resp : BatchResponse,
      (analyze_batch (some c0) ⟨["good", "bad"]⟩ 7 none ⟨0, 0⟩).2 = .ok resp ∧
      resp.count = (["good", "bad"] : List String).length ∧
      resp.results.length = (["good", "bad"] : List String).length ∧
      ∀ i : Nat, resp.results[i]? = ((["good", "bad"] : List String)[i]?).map
        (fun t => ⟨t, (c0 t).label.toLower, (c0 t).score, (c0 t).label,
                   7 / (["good", "bad"] : List String).length⟩)) :=
  ⟨by decide, analyze_batch_order_preserved c0 ["good", "bad"] 7 ⟨0, 0⟩ (by decide)⟩

/-- Claim C5: every entry of a successful batch response carries the same
latency, the total batch latency divided by `N` with integer (floor)
division. -/
theorem analyze_batch_latency_uniform (c : Cap) (texts : List String)
    (t_ms : Nat) (m : Metrics)
    (hv : BatchSentimentRequest.valid ⟨texts⟩ = true) :
    ∃ resp : BatchResponse,
      (analyze_batch (some c) ⟨texts⟩ t_ms none m).2 = .ok resp ∧
      ∀ item ∈ resp.results, item.latency_ms = t_ms / texts.length := by
  refine ⟨_, by rw [analyze_batch_ok c texts t_ms m hv], ?_⟩
  intro item hitem
  rcases List.mem_map.mp hitem with ⟨t, _, rfl⟩
  rfl

/-- Claim C5, witness at a concrete three-text batch (7 // 3 = 2 for every
entry). -/
theorem analyze_batch_latency_uniform_witness :
    BatchSentimentRequest.valid ⟨["a", "b", "c"]⟩ = true ∧
    (∃ resp : BatchResponse,
      (analyze_batch (some c0) ⟨["a", "b", "c"]⟩ 7 none ⟨0, 0⟩).2 = .ok resp ∧
      ∀ item ∈ resp.results,
        item.latency_ms = 7 / (["a", "b", "c"] : List String).length) :=
  ⟨by decide, analyze_batch_latency_uniform c0 ["a", "b", "c"] 7 ⟨0, 0⟩ (by decide)⟩

/-- Claim C7: a valid single or batch call with the model unloaded returns a
503 with detail "Model not loaded"; a valid call during which the underlying
classification raises returns a 500 carrying the failure message; in all four
cases the metrics counters are returned unchanged. -/
theorem analyze_error_cases_leave_state (c : Cap) (req : SentimentRequest)
    (breq : BatchSentimentRequest) (l1 l2 : Nat) (msg : String) (m : Metrics)
    (hr : req.valid = true) (hb : breq.valid = true) :
    analyze_sentiment none req l1 none m =
      (m, .error (.httpError 503 "Model not loaded")) ∧
    analyze_batch none breq l2 none m =
      (m, .error (.httpError 503 "Model not loaded")) ∧
    analyze_sentiment (some c) req l1 (some msg) m =
      (m, .error (.httpError 500 msg)) ∧
    analyze_batch (some c) breq l2 (some msg) m =
      (m, .error (.httpError 500 msg)) := by
  simp [analyze_sentiment, analyze_batch, hr, hb]

/-- Claim C7, witness at concrete requests. -/
theorem analyze_error_cases_leave_state_witness :
    SentimentRequest.valid ⟨"a", none⟩ = true ∧
    BatchSentimentRequest.valid ⟨["a"]⟩ = true ∧
    (analyze_sentiment none ⟨"a", none⟩ 1 none ⟨0, 0⟩ =
      (⟨0, 0⟩, .error (.httpError 503 "Model not loaded")) ∧
    analyze_batch none ⟨["a"]⟩ 2 none ⟨0, 0⟩ =
      (⟨0, 0⟩, .error (.httpError 503 "Model not loaded")) ∧
    analyze_sentiment (some c0) ⟨"a", none⟩ 1 (some "boom") ⟨0, 0⟩ =
      (⟨0, 0⟩, .error (.httpError 500 "boom")) ∧
    analyze_batch (some c0) ⟨["a"]⟩ 2 (some "boom") ⟨0, 0⟩ =
      (⟨0, 0⟩, .error (.httpError 500 "boom"))) :=
  ⟨by decide, by decide,
   analyze_error_cases_leave_state c0 ⟨"a", none⟩ ⟨["a"]⟩ 1 2 "boom" ⟨0, 0⟩
     (by decide) (by decide)⟩

/-- Claim C8: the validation boundaries are exactly the spec's — a 0-length
text is rejected, a 5000-character text accepted, a 5001-character text
rejected; a batch of 0 texts is rejected, of 100 accepted, of 101 rejected. -/
theorem validation_boundaries (t0 t5000 t5001 : SentimentRequest)
    (b0 b100 b101 : BatchSentimentRequest)
    (h0 : t0.text.length = 0) (h1 : t5000.text.length = 5000)
    (h2 : t5001.text.length = 5001) (h3 : b0.texts.length = 0)
    (h4 : b100.texts.length = 100) (h5 : b101.texts.length = 101) :
    t0.valid = false ∧ t5000.valid = true ∧ t5001.valid = false ∧
    b0.valid = false ∧ b100.valid = true ∧ b101.valid = false := by
  simp [SentimentRequest.valid, BatchSentimentRequest.valid,
        h0, h1, h2, h3, h4, h5]

/-- Claim C8, witness at concrete boundary-sized requests. -/
theorem validation_boundaries_witness :
    (SentimentRequest.mk "" none).text.length = 0 ∧
    (SentimentRequest.mk (String.mk (List.replicate 5000 'a')) none).text.length = 5000 ∧
    (SentimentRequest.mk (String.mk (List.replicate 5001 'a')) none).text.length = 5001 ∧
    (BatchSentimentRequest.mk []).texts.length = 0 ∧
    (BatchSentimentRequest.mk (List.replicate 100 "x")).texts.length = 100 ∧
    (BatchSentimentRequest.mk (List.replicate 101 "x")).texts.length = 101 ∧
    ((SentimentRequest.mk "" none).valid = false ∧
     (SentimentRequest.mk (String.mk (List.replicate 5000 'a')) none).valid = true ∧
     (SentimentRequest.mk (String.mk (List.replicate 5001 'a')) none).valid = false ∧
     (BatchSentimentRequest.mk []).valid = false ∧
     (BatchSentimentRequest.mk (List.replicate 100 "x")).valid = true ∧
     (BatchSentimentRequest.mk (List.replicate 101 "x")).valid = false) :=
  ⟨rfl,
   by show (String.mk (List.replicate 5000 'a')).length = 5000
      rw [String.length_mk, List.length_replicate],
   by show (String.mk (List.replicate 5001 'a')).length = 5001
      rw [String.length_mk, List.length_replicate],
   rfl, by simp, by simp,
   validation_boundaries _ _ _ _ _ _ rfl
     (by show (String.mk (List.replicate 5000 'a')).length = 5000
         rw [String.length_mk, List.length_replicate])
     (by show (String.mk (List.replicate 5001 'a')).length = 5001
         rw [String.length_mk, List.length_replicate])
     rfl (by simp) (by simp)⟩

/-- Claim C9: a successful single call on a valid request, assuming the
capability's score lies in [0,1], returns a response whose score lies in
[0,1] and whose `sentiment` is the lower-cased form of the raw `label` it
carries. -/
theorem analyze_single_score_and_label (c : Cap) (req : SentimentRequest)
    (latency : Nat) (m : Metrics) (hv : req.valid = true)
    (hs : 0 ≤ (c req.text).score ∧ (c req.text).score ≤ 1) :
    ∃ resp : SentimentResponse,
      (analyze_sentiment (some c) req latency none m).2 = .ok resp ∧
      0 ≤ resp.score ∧ resp.score ≤ 1 ∧
      resp.sentiment = resp.label.toLower ∧
      resp.label = (c req.text).label := by
  exact ⟨⟨(c req.text).label.toLower, (c req.text).score, (c req.text).label,
          "greengrass-edge", latency, req.context⟩,
         by simp [analyze_sentiment, hv], hs.1, hs.2, rfl, rfl⟩

/-- Claim C9, witness at a concrete request and capability. -/
theorem analyze_single_score_and_label_witness :
    SentimentRequest.valid ⟨"nice room", none⟩ = true ∧
    (0 ≤ (c0 (SentimentRequest.mk "nice room" none).text).score ∧
     (c0 (SentimentRequest.mk "nice room" none).text).score ≤ 1) ∧
    (∃ resp : SentimentResponse,
      (analyze_sentiment (some c0) ⟨"nice room", none⟩ 5 none ⟨0, 0⟩).2 = .ok resp ∧
      0 ≤ resp.score ∧ resp.score ≤ 1 ∧
      resp.sentiment = resp.label.toLower ∧
      resp.label = (c0 (SentimentRequest.mk "nice room" none).text).label) :=
  ⟨by decide, by norm_num [c0],
   analyze_single_score_and_label c0 ⟨"nice room", none⟩ 5 ⟨0, 0⟩ (by decide)
     (by norm_num [c0])⟩

/-- Claim C10: batch validation constrains only the list size; a batch whose
size is in 1..100 is accepted and fully classified even when it contains a
text the single endpoint would reject (empty or longer than 5000). -/
theorem batch_validation_ignores_item_length (texts : List String) (x : String)
    (c : Cap) (t_ms : Nat) (m : Metrics)
    (hmem : x ∈ texts) (hbad : SentimentRequest.valid ⟨x, none⟩ = false)
    (hlen : 1 ≤ texts.length ∧ texts.length ≤ 100) :
    BatchSentimentRequest.valid ⟨texts⟩ = true ∧
    ∃ resp : BatchResponse,
      (analyze_batch (some c) ⟨texts⟩ t_ms none m).2 = .ok resp ∧
      resp.results.length = texts.length ∧
      ∃ item ∈ resp.results, item.text = x := by
  have hv : BatchSentimentRequest.valid ⟨texts⟩ = true := by
    simp [BatchSentimentRequest.valid]
    exact hlen
  refine ⟨hv, _, by rw [analyze_batch_ok c texts t_ms m hv], by simp, ?_⟩
  exact ⟨_, List.mem_map.mpr ⟨x, hmem, rfl⟩, rfl⟩

/-- Claim C10, witness: a batch containing only the empty string (which the
single endpoint rejects) is accepted and classified. -/
theorem batch_validation_ignores_item_length_witness :
    ("" ∈ ([""] : List String)) ∧
    SentimentRequest.valid ⟨"", none⟩ = false ∧
    (1 ≤ ([""] : List String).length ∧ ([""] : List String).length ≤ 100) ∧
    (BatchSentimentRequest.valid ⟨[""]⟩ = true ∧
     ∃ resp : BatchResponse,
       (analyze_batch (some c0) ⟨[""]⟩ 4 none ⟨0, 0⟩).2 = .ok resp ∧
       resp.results.length = ([""] : List String).length ∧
       ∃ item ∈ resp.results, item.text = "") :=
  ⟨by simp, by decide, by decide,
   batch_validation_ignores_item_length [""] "" c0 4 ⟨0, 0⟩ (by simp) (by decide)
     (by decide)⟩

/-! ## Startup lifecycle (lines 101-126) -/

/-- `startup_event` (lines 101-126), with the outcome of the two fallible
steps as explicit parameters: `load` is the result of constructing the
pipeline (line 110) and `warmup` the result of the warm-up inference
(line 121).  The source assigns the global `classifier` as soon as the
pipeline is constructed, *before* the warm-up runs; an exception in either
step is re-raised (line 126), which is returned here as the `Except` part.
Note that a warm-up failure therefore leaves the `classifier` global set. -/
def startup_event (load : Except String Cap) (warmup : Except String Unit)
    (classifier : Option Cap) : Option Cap × Except String Unit :=
  match load with
  | .error e => (classifier, .error e)
  | .ok c =>
    match warmup with
    | .error e => (some c, .error e)
    | .ok _ => (some c, .ok ())

/-- The full per-worker state: the `classifier` global plus the two
counters. -/
structure ServerState where
  classifier : Option Cap
  metrics : Metrics

/-- One serving step: handling any one of the four HTTP endpoints.  The
handlers read the `classifier` global but never write it; only the two
counters change. -/
inductive ServeStep : ServerState → ServerState → Prop where
  | analyze (s : ServerState) (req : SentimentRequest) (latency : Nat)
      (raises : Option String) :
      ServeStep s ⟨s.classifier,
        (analyze_sentiment s.classifier req latency raises s.metrics).1⟩
  | analyzeBatch (s : ServerState) (req : BatchSentimentRequest) (t_ms : Nat)
      (raises : Option String) :
      ServeStep s ⟨s.classifier,
        (analyze_batch s.classifier req t_ms raises s.metrics).1⟩
  | health (s : ServerState) : ServeStep s s
  | metricsQuery (s : ServerState) : ServeStep s s

/-- Serving never changes the `classifier` global. -/
lemma ServeStep.classifier_eq {s t : ServerState} (h : ServeStep s t) :
    t.classifier = s.classifier := by
  cases h <;> rfl

/-- Neither does any sequence of serving steps. -/
lemma classifier_eq_of_reaches {s t : ServerState}
    (h : Relation.ReflTransGen ServeStep s t) :
    t.classifier = s.classifier := by
  induction h with
  | refl => rfl
  | tail _ hstep ih => rw [hstep.classifier_eq, ih]

/-- Claim C1 (corrected): the health status is "unhealthy" in every state
before the model load completes (the `classifier` global is still `None`) and
"healthy" immediately after load plus warm-up succeed; after a *load* failure
the global stays `None`, the failure is re-raised, and every state reachable
by serving requests reports "unhealthy" — it never flips back without a
restart.  However — correcting the original claim — after a *warm-up* failure
the `classifier` global has already been assigned (line 110 runs before line
121), so although the failure is re-raised to the caller, the health status
computed from that state reads "healthy", not "unhealthy". -/
theorem health_status_lifecycle (c : Cap) (eL eW : String) (m mi : Metrics)
    (s : ServerState)
    (hreach : Relation.ReflTransGen ServeStep ⟨none, mi⟩ s) :
    (health_check none m).status = "unhealthy" ∧
    startup_event (.ok c) (.ok ()) none = (some c, .ok ()) ∧
    (health_check (some c) m).status = "healthy" ∧
    startup_event (.error eL) (.ok ()) none = (none, .error eL) ∧
    (health_check s.classifier s.metrics).status = "unhealthy" ∧
    startup_event (.ok c) (.error eW) none = (some c, .error eW) ∧
    (health_check (startup_event (.ok c) (.error eW) none).1 m).status =
      "healthy" := by
  refine ⟨rfl, rfl, rfl, rfl, ?_, rfl, rfl⟩
  rw [show s.classifier = none from classifier_eq_of_reaches hreach]
  rfl

/-- Claim C1, witness: instantiated at a concrete capability, messages and a
one-step serving trace from the load-failed state. -/
theorem health_status_lifecycle_witness :
    Relation.ReflTransGen ServeStep ⟨none, ⟨0, 0⟩⟩ ⟨none, ⟨0, 0⟩⟩ ∧
    ((health_check none ⟨0, 0⟩).status = "unhealthy" ∧
     startup_event (.ok c0) (.ok ()) none = (some c0, .ok ()) ∧
     (health_check (some c0) ⟨0, 0⟩).status = "healthy" ∧
     startup_event (.error "load failed") (.ok ()) none =
       (none, .error "load failed") ∧
     (health_check (ServerState.mk none ⟨0, 0⟩).classifier
        (ServerState.mk none ⟨0, 0⟩).metrics).status = "unhealthy" ∧
     startup_event (.ok c0) (.error "warmup failed") none =
       (some c0, .error "warmup failed") ∧
     (health_check (startup_event (.ok c0) (.error "warmup failed") none).1
        ⟨0, 0⟩).status = "healthy") :=
  ⟨Relation.ReflTransGen.refl,
   health_status_lifecycle c0 "load failed" "warmup failed" ⟨0, 0⟩ ⟨0, 0⟩
     ⟨none, ⟨0, 0⟩⟩ Relation.ReflTransGen.refl⟩

/-- Claim C1, counterexample to the original wording: after a warm-up failure
(a state reachable when `pipeline(...)` succeeds but the warm-up inference
raises), the startup failure is re-raised, yet the health status computed from
the resulting state is "healthy" — not "unhealthy" as the claim requires for
every state reachable after a warm-up failure. -/
theorem health_status_after_warmup_failure :
    (startup_event (.ok c0) (.error "warmup failed") none).2 =
      .error "warmup failed" ∧
    (health_check (startup_event (.ok c0) (.error "warmup failed") none).1
       ⟨0, 0⟩).status = "healthy" ∧
    (health_check (startup_event (.ok c0) (.error "warmup failed") none).1
       ⟨0, 0⟩).status ≠ "unhealthy" := by
  refine ⟨rfl, rfl, ?_⟩
  decide

/-! ## Cooperative interleaving model (spec section 5)

The server runs the handlers on a single cooperative event loop per worker:
in-flight requests interleave only at explicit suspension points, and the
handler bodies of `analyze_sentiment` and `analyze_batch` are `async def`
functions containing no `await` at all — in particular none between the
classifier call and the two counter increments (lines 197-202 and 272-277).
The model below makes every statement that touches shared state an atomic
step, lets the scheduler switch coroutines only at suspension-point markers,
and proves the metrics invariant over all schedules. -/

/-- Atomic statements of a handler body.  `awaitPoint` marks a cooperative
suspension point (an `await` in the source); the scheduler may switch
coroutines only there or at handler completion. -/
inductive Stmt where
  | callClassifier (texts : List String) : Stmt
  | incRequestCount (n : Nat) : Stmt
  | incTotalLatency (n : Nat) : Stmt
  | awaitPoint : Stmt
deriving Repr, DecidableEq

/-- Whether a statement is an invocation of the classifier capability. -/
def Stmt.isClassifierCall : Stmt → Bool
  | .callClassifier _ => true
  | _ => false

/-- Effect of one atomic statement on the metrics globals. -/
def execStmt (m : Metrics) : Stmt → Metrics
  | .callClassifier _ => m
  | .incRequestCount n => ⟨m.request_count + n, m.total_latency_ms⟩
  | .incTotalLatency n => ⟨m.request_count, m.total_latency_ms + n⟩
  | .awaitPoint => m

/-- Effect of a straight-line segment of statements. -/
def execStmts (m : Metrics) (l : List Stmt) : Metrics := l.foldl execStmt m

/-- An in-flight analyze request that has passed validation and the readiness
check: single or batch, with its measured wall-clock latency and whether the
classifier call raises during it. -/
inductive Req where
  | single (text : String) (latency : Nat) (raises : Bool) : Req
  | batch (texts : List String) (t_ms : Nat) (raises : Bool) : Req
deriving Repr, DecidableEq

/-- The shared-state statements a handler body executes, traced from the
source.  A single request runs `classifier(request.text)` (line 197) and,
unless that raises, `request_count += 1` (line 201) then
`total_latency_ms += latency_ms` (line 202).  A batch request runs
`classifier(request.texts)` once (line 272) and, unless that raises,
`request_count += len(texts)` (line 276) then
`total_latency_ms += total_time_ms` (line 277).  Neither body contains a
suspension point. -/
def handlerStmts : Req → List Stmt
  | .single t l raises =>
      if raises then [.callClassifier [t]]
      else [.callClassifier [t], .incRequestCount 1, .incTotalLatency l]
  | .batch ts l raises =>
      if raises then [.callClassifier ts]
      else [.callClassifier ts, .incRequestCount ts.length,
            .incTotalLatency l]

/-- The count/latency contribution of a completed request. -/
def reqDelta : Req → Nat × Nat
  | .single _ l raises => if raises then (0, 0) else (1, l)
  | .batch ts l raises => if raises then (0, 0) else (ts.length, l)

/-- Run a coroutine up to and including its next suspension point (or to
completion): the executed segment paired with the remainder. -/
def runToYield : List Stmt → List Stmt × List Stmt
  | [] => ([], [])
  | .awaitPoint :: rest => ([.awaitPoint], rest)
  | s :: rest =>
      let p := runToYield rest
      (s :: p.1, p.2)

/-- A scheduler configuration: the multiset of in-flight coroutines (each the
statements it still has to run) and the shared metrics globals. -/
abbrev Sched := Multiset (List Stmt) × Metrics

/-- One step of the cooperative scheduler: pick any unfinished coroutine and
run it atomically up to its next suspension point. -/
inductive SchedStep : Sched → Sched → Prop where
  | run (t : List Stmt) (ths : Multiset (List Stmt)) (m : Metrics)
      (hne : t ≠ []) (hmem : t ∈ ths) :
      SchedStep (ths, m)
        ((runToYield t).2 ::ₘ ths.erase t, execStmts m (runToYield t).1)

/-- Handler traces are never empty (every handler at least calls the
classifier). -/
lemma handlerStmts_ne_nil (r : Req) : handlerStmts r ≠ [] := by
  cases r with
  | single t l raises => cases raises <;> simp [handlerStmts]
  | batch ts l raises => cases raises <;> simp [handlerStmts]

/-- No handler trace contains a suspension point: the source handlers have no
`await` in their bodies. -/
lemma awaitPoint_not_mem_handlerStmts (r : Req) :
    Stmt.awaitPoint ∉ handlerStmts r := by
  cases r with
  | single t l raises => cases raises <;> simp [handlerStmts]
  | batch ts l raises => cases raises <;> simp [handlerStmts]

/-- A coroutine with no suspension point runs to completion in one scheduler
step. -/
lemma runToYield_no_yield :
    ∀ l : List Stmt, Stmt.awaitPoint ∉ l → runToYield l = (l, [])
  | [], _ => rfl
  | s :: rest, h => by
    have h2 : Stmt.awaitPoint ∉ rest := fun hm => h (List.mem_cons_of_mem s hm)
    cases s with
    | awaitPoint => exact absurd (List.mem_cons_self _ _) h
    | callClassifier ts => simp [runToYield, runToYield_no_yield rest h2]
    | incRequestCount n => simp [runToYield, runToYield_no_yield rest h2]
    | incTotalLatency n => simp [runToYield, runToYield_no_yield rest h2]

/-- Executing a whole handler trace adds the request's count/latency
contribution to the two counters as a pair. -/
lemma execStmts_handlerStmts (m : Metrics) (r : Req) :
    execStmts m (handlerStmts r) =
      ⟨m.request_count + (reqDelta r).1,
       m.total_latency_ms + (reqDelta r).2⟩ := by
  cases r with
  | single t l raises =>
      cases raises <;> simp [handlerStmts, reqDelta, execStmts, execStmt]
  | batch ts l raises =>
      cases raises <;> simp [handlerStmts, reqDelta, execStmts, execStmt]

/-- Scheduler invariant: some sub-multiset `done` of the requests has fully
completed, the remaining coroutines are exactly the untouched handler traces
plus finished (empty) coroutines, and the counters equal the initial values
plus the sums over `done` — both components derived from the same `done`. -/
def SchedInv (reqs : Multiset Req) (m0 : Metrics) (cfg : Sched) : Prop :=
  ∃ done : Multiset Req, ∃ k : Nat,
    done ≤ reqs ∧
    cfg.1 = (reqs - done).map handlerStmts + Multiset.replicate k [] ∧
    cfg.2 = ⟨m0.request_count + (done.map fun r => (reqDelta r).1).sum,
             m0.total_latency_ms + (done.map fun r => (reqDelta r).2).sum⟩

/-- The invariant holds in every configuration reachable from launching any
multiset of requests. -/
lemma schedInv_of_reaches (reqs : Multiset Req) (m0 : Metrics) (cfg : Sched)
    (h : Relation.ReflTransGen SchedStep (reqs.map handlerStmts, m0) cfg) :
    SchedInv reqs m0 cfg := by
  induction h with
  | refl => exact ⟨0, 0, zero_le _, by simp, by simp⟩
  | tail hab hbc ih =>
    obtain ⟨done, k, hle, hths, hm⟩ := ih
    cases hbc with
    | run t ths m hne hmem =>
      simp only at hths hm
      -- the chosen coroutine is an untouched handler trace
      have hmem2 : t ∈ (reqs - done).map handlerStmts := by
        rcases Multiset.mem_add.mp (hths ▸ hmem) with h1 | h1
        · exact h1
        · exact absurd (Multiset.eq_of_mem_replicate h1) hne
      obtain ⟨r, hr, hrt⟩ := Multiset.mem_map.mp hmem2
      have hnoy : Stmt.awaitPoint ∉ t := hrt ▸ awaitPoint_not_mem_handlerStmts r
      have hry : runToYield t = (t, []) := runToYield_no_yield t hnoy
      refine ⟨r ::ₘ done, k + 1, ?_, ?_, ?_⟩
      · calc r ::ₘ done = {r} + done := (Multiset.singleton_add r done).symm
          _ ≤ (reqs - done) + done :=
              add_le_add_right (Multiset.singleton_le.mpr hr) done
          _ = reqs := tsub_add_cancel_of_le hle
      · have hsub : reqs - (r ::ₘ done) = (reqs - done).erase r := by
          rw [← Multiset.singleton_add, add_comm, ← tsub_tsub,
              Multiset.sub_singleton]
        have hkey : (Multiset.map handlerStmts (reqs - done)).erase
              (handlerStmts r) =
            Multiset.map handlerStmts ((reqs - done).erase r) := by
          conv_lhs => rw [← Multiset.cons_erase hr]
          rw [Multiset.map_cons, Multiset.erase_cons_head]
        have herase : ths.erase t =
            ((reqs - done).erase r).map handlerStmts +
              Multiset.replicate k [] := by
          rw [hths, Multiset.erase_add_left_pos _ hmem2, ← hrt, hkey]
        simp only [hry, herase, hsub, Multiset.replicate_succ]
        rw [← Multiset.singleton_add, ← Multiset.singleton_add,
            add_left_comm]
      · subst hrt
        rw [hry, execStmts_handlerStmts, hm]
        simp only [Multiset.map_cons, Multiset.sum_cons, Metrics.mk.injEq]
        exact ⟨by omega, by omega⟩

/-- Claim C2: under the cooperative scheduling of the runtime (coroutines
switch only at suspension points, and the handler bodies contain none), for
every interleaving of any multiset of in-flight single and batch requests,
every reachable state of the counters is the initial state plus the count sum
and the latency sum of the *same* completed sub-multiset of requests — so no
reader can observe a count increment without its paired latency increment —
and once all coroutines have finished, every update is accounted for (none
lost). -/
theorem metrics_updates_atomic_pair (reqs : Multiset Req) (m0 : Metrics)
    (cfg : Sched)
    (h : Relation.ReflTransGen SchedStep (reqs.map handlerStmts, m0) cfg) :
    ∃ done : Multiset Req, done ≤ reqs ∧
      cfg.2.request_count =
        m0.request_count + (done.map fun r => (reqDelta r).1).sum ∧
      cfg.2.total_latency_ms =
        m0.total_latency_ms + (done.map fun r => (reqDelta r).2).sum ∧
      ((∀ t ∈ cfg.1, t = []) → done = reqs) := by
  obtain ⟨done, k, hle, hths, hm⟩ := schedInv_of_reaches reqs m0 cfg h
  refine ⟨done, hle, by rw [hm], by rw [hm], ?_⟩
  intro hall
  have hrem : reqs - done = 0 := by
    by_contra hne
    obtain ⟨r, hr⟩ := Multiset.exists_mem_of_ne_zero hne
    have hmem : handlerStmts r ∈ cfg.1 := by
      rw [hths]
      exact Multiset.mem_add.mpr (Or.inl (Multiset.mem_map_of_mem _ hr))
    exact handlerStmts_ne_nil r (hall _ hmem)
  exact le_antisymm hle (tsub_eq_zero_iff_le.mp hrem)

/-- Claim C2, witness: the invariant instantiated at a concrete pool of one
single and one batch request, at the initial configuration. -/
theorem metrics_updates_atomic_pair_witness :
    Relation.ReflTransGen SchedStep
      (({Req.single "a" 5 false, Req.batch ["b", "c"] 8 false} :
          Multiset Req).map handlerStmts, (⟨0, 0⟩ : Metrics))
      (({Req.single "a" 5 false, Req.batch ["b", "c"] 8 false} :
          Multiset Req).map handlerStmts, (⟨0, 0⟩ : Metrics)) ∧
    (∃ done : Multiset Req,
      done ≤ ({Req.single "a" 5 false, Req.batch ["b", "c"] 8 false} :
          Multiset Req) ∧
      ((({Req.single "a" 5 false, Req.batch ["b", "c"] 8 false} :
          Multiset Req).map handlerStmts, (⟨0, 0⟩ : Metrics)) :
            Sched).2.request_count =
        (⟨0, 0⟩ : Metrics).request_count +
          (done.map fun r => (reqDelta r).1).sum ∧
      ((({Req.single "a" 5 false, Req.batch ["b", "c"] 8 false} :
          Multiset Req).map handlerStmts, (⟨0, 0⟩ : Metrics)) :
            Sched).2.total_latency_ms =
        (⟨0, 0⟩ : Metrics).total_latency_ms +
          (done.map fun r => (reqDelta r).2).sum ∧
      ((∀ t ∈ ((({Req.single "a" 5 false, Req.batch ["b", "c"] 8 false} :
          Multiset Req).map handlerStmts, (⟨0, 0⟩ : Metrics)) : Sched).1,
          t = []) → done = {Req.single "a" 5 false,
            Req.batch ["b", "c"] 8 false})) :=
  ⟨Relation.ReflTransGen.refl,
   metrics_updates_atomic_pair _ _ _ Relation.ReflTransGen.refl⟩

/-- Claim C6: the batch handler's trace invokes the classifier capability
exactly once (regardless of the batch size), performs exactly one update of
each counter — adding `len(texts)` to the request count and the single call's
duration to the total latency — and executing that trace yields exactly the
counter state `analyze_batch` returns. -/
theorem analyze_batch_single_call_single_record (c : Cap)
    (texts : List String) (t_ms : Nat) (m : Metrics)
    (hv : BatchSentimentRequest.valid ⟨texts⟩ = true) :
    ((handlerStmts (.batch texts t_ms false)).filter
        Stmt.isClassifierCall) = [.callClassifier texts] ∧
    ((handlerStmts (.batch texts t_ms false)).filter
        (fun s => match s with | .incRequestCount _ => true | _ => false)) =
      [.incRequestCount texts.length] ∧
    ((handlerStmts (.batch texts t_ms false)).filter
        (fun s => match s with | .incTotalLatency _ => true | _ => false)) =
      [.incTotalLatency t_ms] ∧
    (analyze_batch (some c) ⟨texts⟩ t_ms none m).1 =
      execStmts m (handlerStmts (.batch texts t_ms false)) := by
  refine ⟨rfl, rfl, rfl, ?_⟩
  rw [analyze_batch_ok c texts t_ms m hv, execStmts_handlerStmts]
  rfl

/-- Claim C6, witness at a concrete two-text batch. -/
theorem analyze_batch_single_call_single_record_witness :
    BatchSentimentRequest.valid ⟨["x", "y"]⟩ = true ∧
    (((handlerStmts (.batch ["x", "y"] 9 false)).filter
        Stmt.isClassifierCall) = [.callClassifier ["x", "y"]] ∧
    ((handlerStmts (.batch ["x", "y"] 9 false)).filter
        (fun s => match s with | .incRequestCount _ => true | _ => false)) =
      [.incRequestCount (["x", "y"] : List String).length] ∧
    ((handlerStmts (.batch ["x", "y"] 9 false)).filter
        (fun s => match s with | .incTotalLatency _ => true | _ => false)) =
      [.incTotalLatency 9] ∧
    (analyze_batch (some c0) ⟨["x", "y"]⟩ 9 none ⟨0, 0⟩).1 =
      execStmts ⟨0, 0⟩ (handlerStmts (.batch ["x", "y"] 9 false))) :=
  ⟨by decide,
   analyze_batch_single_call_single_record c0 ["x", "y"] 9 ⟨0, 0⟩ (by decide)⟩
